import Mathlib

/-!
Verification of the frame-send orchestration of omt-send-test-rs.

The definitions below are a shallow embedding of src/main.rs:
the pattern generator (VideoFormat::create_test_frame), the return-code
interpreter (interpret_return_code), the paced streaming loop of
run_send_test, and the drift-recovery pacing step.  The native transport
is modelled as a pair of oracles: the return code of the k-th send call
and the connection count observed right after the k-th send call.
Machine integers are modelled as Nat / Int; the i64 saturating addition
used for timestamps is modelled explicitly.  Byte buffers are List Nat.
-/

/-- Pixel encodings of the OMTCodec enum that the source matches on.
The constructor Other stands for every other codec value, handled by the
default arms of the Rust match expressions. -/
inductive OMTCodec
  | UYVY
  | BGRA
  | NV12
  | Other
deriving DecidableEq

/-- VideoFormat from src/main.rs lines 14-22.  Width, height and the frame
rate are kept as Nat; the source stores them as i32 and only ever uses the
positive in-range values of the built-in catalogue, where i32 and Nat
arithmetic agree. -/
structure VideoFormat where
  codec : OMTCodec
  width : Nat
  height : Nat
  fps_n : Nat
  fps_d : Nat
  name : String

/-- VideoFormat::stride, src/main.rs lines 25-32. -/
def VideoFormat.stride (f : VideoFormat) : Nat :=
  match f.codec with
  | .UYVY => f.width * 2
  | .BGRA => f.width * 4
  | .NV12 => f.width
  | .Other => f.width * 4

/-- VideoFormat::buffer_size, src/main.rs lines 34-44. -/
def VideoFormat.buffer_size (f : VideoFormat) : Nat :=
  match f.codec with
  | .UYVY => f.stride * f.height
  | .BGRA => f.stride * f.height
  | .NV12 => f.width * f.height + f.width * f.height / 2
  | .Other => f.stride * f.height

/-- Color-bar lookup of the UYVY arm of create_test_frame,
src/main.rs lines 58-67; returns (U, Y, V) for a section index. -/
def uyvyColor (sectionIdx : Nat) : Nat × Nat × Nat :=
  match sectionIdx with
  | 0 => (128, 235, 128)
  | 1 => (16, 210, 146)
  | 2 => (166, 170, 16)
  | 3 => (54, 145, 34)
  | 4 => (202, 106, 222)
  | 5 => (90, 81, 240)
  | 6 => (240, 41, 110)
  | _ => (128, 16, 128)

/-- One row of the UYVY pattern, src/main.rs lines 52-74.  The Rust code
walks chunks_exact_mut(4) over a row of stride = 2 * width bytes, so it
fills 2 * width / 4 four-byte groups and leaves the remaining
2 * width % 4 bytes of the row at their initial value 0. -/
def uyvyRow (width : Nat) : List Nat :=
  ((List.range (2 * width / 4)).flatMap fun xPair =>
    let x := xPair * 2
    let c := uyvyColor (x * 8 / width)
    [c.1, c.2.1, c.2.2, c.2.1]) ++ List.replicate (2 * width % 4) 0

/-- One BGRA pixel of the gradient pattern, src/main.rs lines 78-86.
The Rust code computes the bytes with f32 arithmetic; the exact rational
floors below are the values those expressions denote for the in-range
dimensions of the catalogue (the claims checked here depend only on the
length of the buffer, never on BGRA byte values). -/
def bgraPixel (width height i : Nat) : List Nat :=
  let x := i % width
  let y := i / width
  [255 * x / width, 255 * y / height, 255 * (x + y) / (width + height), 255]

/-- VideoFormat::create_test_frame, src/main.rs lines 46-107.  The buffer
starts as buffer_size zero bytes and the arms overwrite it:
UYVY writes buffer_size / stride = height rows; BGRA writes
buffer_size / 4 = width * height pixels; NV12 writes width * height Y
bytes 180 and then (width * height / 2) / 2 interleaved (128, 128) UV
pairs, leaving any odd trailing byte 0; the default arm writes nothing,
leaving the zero buffer. -/
def VideoFormat.create_test_frame (f : VideoFormat) : List Nat :=
  match f.codec with
  | .UYVY => (List.range f.height).flatMap fun _ => uyvyRow f.width
  | .BGRA => (List.range (f.buffer_size / 4)).flatMap fun i =>
      bgraPixel f.width f.height i
  | .NV12 =>
      let ySize := f.width * f.height
      let uvSize := f.width * f.height / 2
      List.replicate ySize 180 ++
        List.replicate (2 * (uvSize / 2)) 128 ++
        List.replicate (uvSize - 2 * (uvSize / 2)) 0
  | .Other => List.replicate f.buffer_size 0

/-- Substring test on lists of characters, the semantics of the Rust
str::contains call on line 248 of src/main.rs. -/
def containsSub : List Char → List Char → Bool
  | pat, [] => pat.isEmpty
  | pat, c :: rest => pat.isPrefixOf (c :: rest) || containsSub pat (rest)

/-- String containment, Rust str::contains with a literal pattern. -/
def strContains (s pat : String) : Bool :=
  containsSub pat.toList s.toList

/-- interpret_return_code, src/main.rs lines 110-120, with the match arms
in source order. -/
def interpret_return_code (rc : Int) : String :=
  if rc = 0 then "Success"
  else if rc = 12428 ∨ rc = 19448 ∨ rc = 29843 ∨ rc = 39293 then
    "Frame queued/processing (non-fatal)"
  else if rc = 26984 then "Buffer overflow or encoding error"
  else if rc = -1 then "General error"
  else if rc > 0 then "Status/warning code (may be non-fatal)"
  else "Unknown error"

/-- Largest i64 value, the saturation bound of Rust i64::saturating_add. -/
def i64Max : Int := 9223372036854775807

/-- Smallest i64 value. -/
def i64Min : Int := -9223372036854775808

/-- Rust i64::saturating_add on in-range operands, used for the timestamp
advance on src/main.rs line 257. -/
def saturatingAdd (a b : Int) : Int :=
  if i64Max < a + b then i64Max
  else if a + b < i64Min then i64Min
  else a + b

/-- Per-frame timestamp increment, src/main.rs lines 206-207:
ticks_per_sec * fps_d / fps_n in i64 arithmetic (both operands are
nonnegative, so truncating and flooring division agree). -/
def ticksPerFrame (fps_n fps_d : Nat) : Int :=
  10000000 * (fps_d : Int) / (fps_n : Int)

/-- Number of streaming iterations, src/main.rs line 211:
duration_secs * fps_n / fps_d in u32 arithmetic. -/
def framesToSend (duration_secs fps_n fps_d : Nat) : Nat :=
  duration_secs * fps_n / fps_d

/-- Outcome of one streaming iteration, as classified by
interpret_return_code together with the checks of src/main.rs
lines 230-255. -/
inductive RcClass
  | success
  | transientBackpressure
  | informational
  | fatal
deriving DecidableEq

/-- Per-iteration classification realised by src/main.rs lines 230-255:
rc == 0 succeeds; otherwise the loop first checks the connection count
(line 235) and ends the session when no peer is active; then rc == 26984
is the backpressure retry (line 241); then any rc whose
interpret_return_code string contains "non-fatal" is informational
(line 248); everything else is fatal (line 253).  Both session-ending
branches (the peer-loss break and the fatal bail) are RcClass.fatal:
in either case the session ends. -/
def loopClassify (rc : Int) (peerActive : Bool) : RcClass :=
  if rc = 0 then .success
  else if peerActive = false then .fatal
  else if rc = 26984 then .transientBackpressure
  else if strContains (interpret_return_code rc) "non-fatal" then .informational
  else .fatal

/-- Modelled from the spec: the classification table claimed in spec
section 4.3 and claim C6.  Clause order and contents follow the claim:
rc == 0 is Success; rc == 26984 is TransientBackpressure (the retry
presumes an ongoing session, so an active peer); the four listed codes
and every other positive rc with an active peer are InformationalStatus;
rc < 0, or rc > 0 with no active peer, is Fatal (the session ends). -/
def claimedClassify (rc : Int) (peerActive : Bool) : RcClass :=
  if rc = 0 then .success
  else if rc = 26984 ∧ peerActive = true then .transientBackpressure
  else if (rc = 12428 ∨ rc = 19448 ∨ rc = 29843 ∨ rc = 39293 ∨ rc > 0) ∧
      peerActive = true then .informational
  else .fatal

/-- Return codes of the exhaustive table check of claim C6:
0, 12428, 19448, 26984, 29843, 39293, -1, 1, 99999, INT_MIN, INT_MAX. -/
def listedRcs : List Int :=
  [0, 12428, 19448, 26984, 29843, 39293, -1, 1, 99999, -2147483648, 2147483647]

/-- Result of one whole streaming loop, src/main.rs lines 227-285:
completed means every iteration ran; peerLoss is the break on line 237;
fatal is the bail on line 253 with the frame index and return code. -/
inductive SendOutcome
  | completed
  | peerLoss
  | fatal (i : Nat) (rc : Int)
deriving DecidableEq

/-- Streaming loop of run_send_test, src/main.rs lines 227-285, as a
function of the transport oracles.  rc k is the return code of the send
call of iteration k and peer k tells whether omt_send_connections was
positive when inspected right after that send call.  The first Nat
argument is the number of remaining iterations, the second the current
loop index i, the Int argument the current pts.  The returned list holds
the Timestamp of every send call in order.  Branches in source order:
rc == 0 advances pts by saturating_add (line 257); otherwise a zero
connection count breaks (lines 235-238); rc == 26984 keeps pts and moves
to the next iteration, the continue on line 244; an interpret string
containing "non-fatal" advances (lines 248-249); anything else is the
bail on line 253. -/
def streamLoop (rc : Nat → Int) (peer : Nat → Bool) (delta : Int) :
    Nat → Nat → Int → List Int × SendOutcome
  | 0, _, _ => ([], .completed)
  | n + 1, i, pts =>
    let r := rc i
    if r = 0 then
      let rest := streamLoop rc peer delta n (i + 1) (saturatingAdd pts delta)
      (pts :: rest.1, rest.2)
    else if peer i = false then
      ([pts], .peerLoss)
    else if r = 26984 then
      let rest := streamLoop rc peer delta n (i + 1) pts
      (pts :: rest.1, rest.2)
    else if strContains (interpret_return_code r) "non-fatal" then
      let rest := streamLoop rc peer delta n (i + 1) (saturatingAdd pts delta)
      (pts :: rest.1, rest.2)
    else
      ([pts], .fatal i r)

/-- Result of run_send_test as seen by the caller, src/main.rs
lines 122-308. -/
inductive DriverResult
  | ok
  | sessionCreateFailed
  | submissionFatal (i : Nat) (rc : Int)
deriving DecidableEq

/-- Observable record of one run: the Timestamps of every send call, in
order; whether omt_send_destroy was called on the session handle; and
the returned value. -/
structure RunResult where
  submissions : List Int
  destroyed : Bool
  result : DriverResult
deriving DecidableEq

/-- run_send_test, src/main.rs lines 122-308, over a fake transport.
createOk models whether omt_send_create returned a non-null handle
(line 132); a null handle is the bail on line 134.  After the loop the
code reads final statistics and calls omt_send_destroy (line 303) and
returns Ok, both after a completed loop and after the peer-loss break.
The bail on line 253 returns out of the function before line 303, so on
that path destroy is never called. -/
def run_send_test (createOk : Bool) (rc : Nat → Int) (peer : Nat → Bool)
    (fps_n fps_d duration_secs : Nat) : RunResult :=
  if createOk = false then ⟨[], false, .sessionCreateFailed⟩
  else
    let delta := ticksPerFrame fps_n fps_d
    let n := framesToSend duration_secs fps_n fps_d
    match streamLoop rc peer delta n 0 0 with
    | (subs, .completed) => ⟨subs, true, .ok⟩
    | (subs, .peerLoss) => ⟨subs, true, .ok⟩
    | (subs, .fatal i r) => ⟨subs, false, .submissionFatal i r⟩

/-- Pacing step at the end of each iteration, src/main.rs lines 275-284.
prev is the deadline variable next_frame_time before the step, now the
Instant sampled on line 277, period the frame_duration of line 208, all
as integer tick counts.  Returns the new deadline and whether the loop
sleeps.  The candidate deadline is prev + period (line 276); if it is in
the future the loop sleeps until it (lines 278-279); otherwise, when the
loop is more than 2 * period behind the candidate, the deadline resets to
now + period (lines 280-284).  The initial value of next_frame_time is
the session start time (src/main.rs line 213), so the first candidate
deadline is session-start + period. -/
def pacingStep (prev now period : Int) : Int × Bool :=
  let c := prev + period
  if now < c then (c, true)
  else if 2 * period < now - c then (now + period, false)
  else (c, false)

/-- Timestamp value after k advances of the saturating pts update
starting from p, src/main.rs lines 210 and 257. -/
def ptsIter (p delta : Int) : Nat → Int
  | 0 => p
  | k + 1 => saturatingAdd (ptsIter p delta k) delta

/-- Transport oracle that reports 26984 exactly at send call i0 and 0
everywhere else, the fake transport of claims C1 and C10. -/
def rcOnce (i0 : Nat) : Nat → Int :=
  fun k => if k = i0 then 26984 else 0

/-- Index of the timestamp submitted at iteration t when iteration i0
was a backpressure retry: iterations up to i0 submit t * delta,
later iterations submit (t - 1) * delta. -/
def stutterIdx (i0 t : Nat) : Nat :=
  if t ≤ i0 then t else t - 1

/-- Catalogue entry UYVY_720p30, src/main.rs lines 318-325. -/
def fmtUYVY720 : VideoFormat :=
  { codec := .UYVY, width := 1280, height := 720, fps_n := 30, fps_d := 1,
    name := "UYVY_720p30" }

/-- Catalogue entry BGRA_1080p30, src/main.rs lines 345-352. -/
def fmtBGRA1080 : VideoFormat :=
  { codec := .BGRA, width := 1920, height := 1080, fps_n := 30, fps_d := 1,
    name := "BGRA_1080p30" }

/-- Catalogue entry NV12_720p30, src/main.rs lines 354-361. -/
def fmtNV12720 : VideoFormat :=
  { codec := .NV12, width := 1280, height := 720, fps_n := 30, fps_d := 1,
    name := "NV12_720p30" }

/-! ## Helper lemmas -/

/-- Length of one generated UYVY row: the 2 * width / 4 four-byte groups
plus the 2 * width % 4 untouched bytes make up the full stride. -/
theorem uyvyRow_length (w : Nat) : (uyvyRow w).length = 2 * w := by
  simp [uyvyRow, List.length_flatMap, Function.comp_def, List.map_const]
  omega

/-- The generated frame always has exactly buffer_size bytes, for every
codec and every pair of dimensions. -/
theorem create_test_frame_length (f : VideoFormat) :
    f.create_test_frame.length = f.buffer_size := by
  rcases hc : f.codec with _ | _ | _ | _
  · -- UYVY
    simp [VideoFormat.create_test_frame, VideoFormat.buffer_size,
      VideoFormat.stride, hc, List.length_flatMap, Function.comp_def,
      uyvyRow_length, List.map_const]
    ring
  · -- BGRA
    have hdvd : 4 ∣ f.width * 4 * f.height := ⟨f.width * f.height, by ring⟩
    simp [VideoFormat.create_test_frame, VideoFormat.buffer_size,
      VideoFormat.stride, hc, List.length_flatMap, Function.comp_def,
      bgraPixel, List.map_const]
    omega
  · -- NV12
    simp only [VideoFormat.create_test_frame, VideoFormat.buffer_size, hc,
      List.length_append, List.length_replicate]
    omega
  · -- default arm
    simp [VideoFormat.create_test_frame, VideoFormat.buffer_size, hc]

/-- The loop body makes exactly one send call per iteration, so the
number of recorded submissions never exceeds the iteration budget. -/
theorem streamLoop_length_le (rc : Nat → Int) (peer : Nat → Bool) (d : Int) :
    ∀ n i p, (streamLoop rc peer d n i p).1.length ≤ n := by
  intro n
  induction n with
  | zero => intro i p; simp [streamLoop]
  | succ n ih =>
    intro i p
    simp only [streamLoop]
    split <;> try (simp only [List.length_cons]; exact Nat.succ_le_succ (ih _ _))
    split
    · simp
    split
    · simp only [List.length_cons]; exact Nat.succ_le_succ (ih _ _)
    split
    · simp only [List.length_cons]; exact Nat.succ_le_succ (ih _ _)
    · simp

/-- Unfolding: an iteration whose return code is 0 records pts and
advances by the saturating increment. -/
theorem streamLoop_step_success (rc : Nat → Int) (peer : Nat → Bool)
    (d : Int) (n i : Nat) (p : Int) (h0 : rc i = 0) :
    streamLoop rc peer d (n + 1) i p =
      ((p :: (streamLoop rc peer d n (i + 1) (saturatingAdd p d)).1),
        (streamLoop rc peer d n (i + 1) (saturatingAdd p d)).2) := by
  simp [streamLoop, h0]

/-- Unfolding: a nonzero return code with no active peer breaks out of
the loop after recording the send. -/
theorem streamLoop_step_peerLoss (rc : Nat → Int) (peer : Nat → Bool)
    (d : Int) (n i : Nat) (p : Int) (h0 : rc i ≠ 0) (hp : peer i = false) :
    streamLoop rc peer d (n + 1) i p = ([p], .peerLoss) := by
  simp [streamLoop, h0, hp]

/-- Unfolding: return code 26984 with an active peer records pts, keeps
pts unchanged and moves to the next iteration. -/
theorem streamLoop_step_backpressure (rc : Nat → Int) (peer : Nat → Bool)
    (d : Int) (n i : Nat) (p : Int) (h : rc i = 26984) (hp : peer i = true) :
    streamLoop rc peer d (n + 1) i p =
      ((p :: (streamLoop rc peer d n (i + 1) p).1),
        (streamLoop rc peer d n (i + 1) p).2) := by
  simp [streamLoop, h, hp]

/-- Unfolding: a nonzero, non-26984 code whose interpretation contains
"non-fatal", with an active peer, records pts and advances. -/
theorem streamLoop_step_info (rc : Nat → Int) (peer : Nat → Bool)
    (d : Int) (n i : Nat) (p : Int) (h0 : rc i ≠ 0) (hp : peer i = true)
    (hbp : rc i ≠ 26984)
    (hnf : strContains (interpret_return_code (rc i)) "non-fatal" = true) :
    streamLoop rc peer d (n + 1) i p =
      ((p :: (streamLoop rc peer d n (i + 1) (saturatingAdd p d)).1),
        (streamLoop rc peer d n (i + 1) (saturatingAdd p d)).2) := by
  simp [streamLoop, h0, hp, hbp, hnf]

/-- Unfolding: a nonzero, non-26984 code whose interpretation does not
contain "non-fatal", with an active peer, ends the run as fatal. -/
theorem streamLoop_step_fatal (rc : Nat → Int) (peer : Nat → Bool)
    (d : Int) (n i : Nat) (p : Int) (h0 : rc i ≠ 0) (hp : peer i = true)
    (hbp : rc i ≠ 26984)
    (hnf : strContains (interpret_return_code (rc i)) "non-fatal" = false) :
    streamLoop rc peer d (n + 1) i p = ([p], .fatal i (rc i)) := by
  simp [streamLoop, h0, hp, hbp, hnf]

/-- Interpretation strings of negative return codes never read as
non-fatal: -1 maps to "General error" and every other negative code to
"Unknown error". -/
theorem interpret_neg_not_nonfatal (rc : Int) (h : rc < 0) :
    strContains (interpret_return_code rc) "non-fatal" = false := by
  have h0 : ¬ rc = 0 := by omega
  have hl : ¬ (rc = 12428 ∨ rc = 19448 ∨ rc = 29843 ∨ rc = 39293) := by omega
  have hbp : ¬ rc = 26984 := by omega
  have hpos : ¬ rc > 0 := by omega
  by_cases h1 : rc = -1
  · simp only [interpret_return_code, if_neg h0, if_neg hl, if_neg hbp,
      if_pos h1]
    rfl
  · simp only [interpret_return_code, if_neg h0, if_neg hl, if_neg hbp,
      if_neg h1, if_neg hpos]
    rfl

/-- Interpretation strings of positive return codes other than 26984
always read as non-fatal. -/
theorem interpret_pos_nonfatal (rc : Int) (h : 0 < rc) (hbp : rc ≠ 26984) :
    strContains (interpret_return_code rc) "non-fatal" = true := by
  have h0 : ¬ rc = 0 := by omega
  have h1 : ¬ rc = -1 := by omega
  by_cases hl : rc = 12428 ∨ rc = 19448 ∨ rc = 29843 ∨ rc = 39293
  · simp only [interpret_return_code, if_neg h0, if_pos hl]
    rfl
  · simp only [interpret_return_code, if_neg h0, if_neg hl, if_neg hbp,
      if_neg h1, if_pos h]
    rfl

/-- Shifting the start of the saturating iteration by one step. -/
theorem ptsIter_succ_left (p d : Int) (k : Nat) :
    ptsIter p d (k + 1) = ptsIter (saturatingAdd p d) d k := by
  induction k with
  | zero => rfl
  | succ k ih =>
    show saturatingAdd (ptsIter p d (k + 1)) d =
      saturatingAdd (ptsIter (saturatingAdd p d) d k) d
    rw [ih]

/-- Closed form of the saturating timestamp iteration: for a nonnegative
increment and a nonnegative in-range start, the value after k steps is
the minimum of p + k * d and the i64 maximum. -/
theorem ptsIter_min (p d : Int) (hd : 0 ≤ d) (hp0 : 0 ≤ p)
    (hpM : p ≤ i64Max) (k : Nat) :
    ptsIter p d k = min (p + k * d) i64Max := by
  induction k with
  | zero =>
    simp only [ptsIter, Nat.cast_zero, zero_mul, add_zero]
    exact (min_eq_left hpM).symm
  | succ k ih =>
    have ht : 0 ≤ (k : Int) * d := mul_nonneg (Int.natCast_nonneg k) hd
    simp only [ptsIter, ih, saturatingAdd]
    push_cast
    rw [add_mul, one_mul, min_def, min_def]
    have hMm : i64Min < 0 := by simp [i64Min]
    split_ifs <;> omega

/-- A loop in which every iteration returns 0 runs to completion and
submits the saturating timestamp sequence starting from p. -/
theorem streamLoop_all_zero (peer : Nat → Bool) (d : Int) :
    ∀ n i p, streamLoop (fun _ => 0) peer d n i p =
      ((List.range n).map fun t => ptsIter p d t, .completed) := by
  intro n
  induction n with
  | zero => intro i p; simp [streamLoop]
  | succ n ih =>
    intro i p
    rw [streamLoop_step_success (fun _ => 0) peer d n i p rfl, ih,
      List.range_succ_eq_map, List.map_cons, List.map_map]
    simp only [Prod.mk.injEq, List.cons.injEq]
    refine ⟨⟨rfl, ?_⟩, trivial⟩
    refine List.map_congr_left fun t _ => ?_
    simp [Function.comp, ptsIter_succ_left]

/-- Full characterisation of the loop against the oracle that reports
26984 exactly once, at send index i0, with a peer always active: the loop
completes, and the timestamp of iteration t is the one reached after
t saturating advances for t up to i0 and after t - 1 advances afterwards
(the iteration right after the backpressure resubmits the same value). -/
theorem streamLoop_rcOnce_eq (i0 : Nat) (d : Int) :
    ∀ n j p, streamLoop (rcOnce i0) (fun _ => true) d n j p =
      ((List.range n).map fun t =>
        ptsIter p d (t - if j ≤ i0 ∧ i0 < j + t then 1 else 0), .completed) := by
  intro n
  induction n with
  | zero => intro j p; simp [streamLoop]
  | succ n ih =>
    intro j p
    by_cases hj : j = i0
    · have hrc : rcOnce i0 j = 26984 := by simp [rcOnce, hj]
      rw [streamLoop_step_backpressure (rcOnce i0) (fun _ => true) d n j p
        hrc rfl, ih, List.range_succ_eq_map, List.map_cons, List.map_map]
      simp only [Prod.mk.injEq, List.cons.injEq]
      refine ⟨⟨by simp [ptsIter], ?_⟩, trivial⟩
      refine List.map_congr_left fun t _ => ?_
      have e1 : Nat.succ t - (if j ≤ i0 ∧ i0 < j + Nat.succ t then 1 else 0)
          = t := by
        subst hj
        split_ifs <;> omega
      have e2 : t - (if j + 1 ≤ i0 ∧ i0 < j + 1 + t then 1 else 0) = t := by
        subst hj
        split_ifs <;> omega
      simp only [Function.comp, e1, e2]
    · have hrc : rcOnce i0 j = 0 := by simp [rcOnce, hj]
      rw [streamLoop_step_success (rcOnce i0) (fun _ => true) d n j p hrc, ih,
        List.range_succ_eq_map, List.map_cons, List.map_map]
      simp only [Prod.mk.injEq, List.cons.injEq]
      refine ⟨⟨by simp [ptsIter], ?_⟩, trivial⟩
      refine List.map_congr_left fun t _ => ?_
      have e1 : Nat.succ t - (if j ≤ i0 ∧ i0 < j + Nat.succ t then 1 else 0)
          = (t - (if j + 1 ≤ i0 ∧ i0 < j + 1 + t then 1 else 0)) + 1 := by
        have hj2 : j ≤ i0 → j < i0 := by omega
        split_ifs <;> omega
      simp only [Function.comp, e1, ptsIter_succ_left]

/-- On a successful create, the submissions of the run are exactly the
timestamps recorded by the streaming loop. -/
theorem run_submissions_eq (rc : Nat → Int) (peer : Nat → Bool)
    (fps_n fps_d dur : Nat) :
    (run_send_test true rc peer fps_n fps_d dur).submissions =
      (streamLoop rc peer (ticksPerFrame fps_n fps_d)
        (framesToSend dur fps_n fps_d) 0 0).1 := by
  simp only [run_send_test]
  rcases hst : streamLoop rc peer (ticksPerFrame fps_n fps_d)
    (framesToSend dur fps_n fps_d) 0 0 with ⟨subs, out⟩
  cases out <;> simp [hst]

/-! ## Claim theorems -/

/-- C10: in every session the total number of send calls made to the
transport is at most frames_to_send = duration_secs * fps_n / fps_d
(floor division), whatever return codes the transport produces: a
backpressure retry consumes one of the loop iterations instead of adding
an extra submission, so the streaming phase performs at most
frames_to_send submissions. -/
theorem C10_send_call_bound (createOk : Bool) (rc : Nat → Int)
    (peer : Nat → Bool) (fps_n fps_d dur : Nat) :
    (run_send_test createOk rc peer fps_n fps_d dur).submissions.length ≤
      framesToSend dur fps_n fps_d ∧
    framesToSend dur fps_n fps_d = dur * fps_n / fps_d := by
  refine ⟨?_, rfl⟩
  cases createOk
  · simp [run_send_test]
  · rw [run_submissions_eq]
    exact streamLoop_length_le rc peer (ticksPerFrame fps_n fps_d)
      (framesToSend dur fps_n fps_d) 0 0

set_option maxRecDepth 8000 in
/-- C8: in a session without backpressure (the transport always returns
0) the submitted Timestamps are 0, d, 2d, ... with
d = ticksPerFrame = 10000000 * fps_d / fps_n (floor), each step taken
with i64 saturating addition, so the k-th value is the minimum of k * d
and the i64 maximum; concretely at 30/1 fps over 1 s the 30th and last
Timestamp is 29 * 333333 = 9666657. -/
theorem C8_timestamp_sequence (fps_n fps_d dur : Nat) (peer : Nat → Bool) :
    ((run_send_test true (fun _ => 0) peer fps_n fps_d dur).submissions =
      (List.range (framesToSend dur fps_n fps_d)).map
        (fun k : Nat => min ((k : Int) * ticksPerFrame fps_n fps_d) i64Max)) ∧
    ticksPerFrame fps_n fps_d = 10000000 * (fps_d : Int) / (fps_n : Int) ∧
    (run_send_test true (fun _ => 0) (fun _ => true) 30 1 1).submissions.getLast?
      = some 9666657 := by
  refine ⟨?_, rfl, by decide⟩
  have hd : 0 ≤ ticksPerFrame fps_n fps_d := by
    unfold ticksPerFrame
    exact Int.ediv_nonneg (by positivity) (by positivity)
  rw [run_submissions_eq, streamLoop_all_zero]
  dsimp only
  refine List.map_congr_left fun k _ => ?_
  rw [ptsIter_min 0 (ticksPerFrame fps_n fps_d) hd le_rfl
    (by norm_num [i64Max]) k]
  rw [zero_add]

/-- C9: the pacing step returns previous_deadline + frame_period, except
that when now - (previous_deadline + frame_period) exceeds
2 * frame_period it resets to now + frame_period; the loop sleeps exactly
when the candidate deadline is in the future, so it sleeps only when the
resulting deadline is in the future.  The first application of the step
uses prev = session start (src/main.rs line 213), so the initial deadline
is session-start + frame_period. -/
theorem C9_pacing_step (prev now period : Int) (hp : 0 ≤ period) :
    ((pacingStep prev now period).1 =
      if 2 * period < now - (prev + period) then now + period
      else prev + period) ∧
    ((pacingStep prev now period).2 = true → now < (pacingStep prev now period).1) ∧
    ((pacingStep prev now period).2 = true ↔ now < prev + period) := by
  simp only [pacingStep]
  split_ifs with h1 h2 <;> refine ⟨?_, ?_, ?_⟩ <;> try simp_all
  all_goals omega

/-- C9 witness: the theorem applied at prev = 0, now = 0, period = 333. -/
theorem C9_pacing_step_witness :
    ((pacingStep 0 0 333).1 =
      if (2 * 333 : Int) < 0 - (0 + 333) then 0 + 333 else 0 + 333) ∧
    ((pacingStep 0 0 333).2 = true → (0 : Int) < (pacingStep 0 0 333).1) ∧
    ((pacingStep 0 0 333).2 = true ↔ (0 : Int) < 0 + 333) :=
  C9_pacing_step 0 0 333 (by decide)

/-- C6: the classification realised by interpret_return_code together
with the peer-liveness check of the loop agrees with the claimed table at
every signed rc and every peer state: 0 is Success; 26984 with an active
peer is TransientBackpressure; the four listed codes and every other
positive rc with an active peer are InformationalStatus; rc < 0, or a
nonzero rc with no active peer, ends the session (Fatal).  The second
conjunct checks the table on the exhaustive list
0, 12428, 19448, 26984, 29843, 39293, -1, 1, 99999, INT_MIN, INT_MAX. -/
theorem C6_classifier_table :
    (∀ rc peerActive, loopClassify rc peerActive = claimedClassify rc peerActive) ∧
    (listedRcs.all fun v =>
      decide (loopClassify v true = claimedClassify v true) &&
      decide (loopClassify v false = claimedClassify v false)) = true := by
  refine ⟨?_, by decide⟩
  intro rc peer
  cases peer
  · by_cases h0 : rc = 0 <;> simp [loopClassify, claimedClassify, h0]
  · by_cases h0 : rc = 0
    · simp [loopClassify, claimedClassify, h0]
    · by_cases hbp : rc = 26984
      · simp [loopClassify, claimedClassify, h0, hbp]
      · by_cases hpos : 0 < rc
        · have hnf := interpret_pos_nonfatal rc hpos hbp
          have hl : rc = 12428 ∨ rc = 19448 ∨ rc = 29843 ∨ rc = 39293 ∨
              rc > 0 := by omega
          simp [loopClassify, claimedClassify, h0, hbp, hnf, hl]
        · have hneg : rc < 0 := by omega
          have hnf := interpret_neg_not_nonfatal rc hneg
          have hl : ¬ (rc = 12428 ∨ rc = 19448 ∨ rc = 29843 ∨ rc = 39293 ∨
              rc > 0) := by omega
          simp [loopClassify, claimedClassify, h0, hbp, hnf, hl]

/-- C7: for every format satisfying the parity invariants the generator
returns a buffer of exactly the tabulated payload size: 2 * width * height
bytes for UYVY, 4 * width * height for BGRA, and
width * height + width * height / 2 for NV12. -/
theorem C7_payload_size (f : VideoFormat) :
    (f.codec = .UYVY → f.width % 2 = 0 →
      f.create_test_frame.length = 2 * (f.width * f.height)) ∧
    (f.codec = .BGRA →
      f.create_test_frame.length = 4 * (f.width * f.height)) ∧
    (f.codec = .NV12 → f.width % 2 = 0 → f.height % 2 = 0 →
      f.create_test_frame.length =
        f.width * f.height + f.width * f.height / 2) := by
  refine ⟨fun hc _ => ?_, fun hc => ?_, fun hc _ _ => ?_⟩ <;>
    rw [create_test_frame_length] <;>
    simp only [VideoFormat.buffer_size, VideoFormat.stride, hc] <;>
    ring

/-- C7 witness: the theorem applied to the catalogue formats
UYVY 1280x720, BGRA 1920x1080 and NV12 1280x720 yields the tabulated
sizes 1843200, 8294400 and 1382400. -/
theorem C7_payload_size_witness :
    fmtUYVY720.width % 2 = 0 ∧
    fmtUYVY720.create_test_frame.length = 1843200 ∧
    fmtBGRA1080.create_test_frame.length = 8294400 ∧
    fmtNV12720.create_test_frame.length = 1382400 :=
  ⟨rfl,
    ((C7_payload_size fmtUYVY720).1 rfl rfl).trans (by norm_num [fmtUYVY720]),
    ((C7_payload_size fmtBGRA1080).2.1 rfl).trans (by norm_num [fmtBGRA1080]),
    ((C7_payload_size fmtNV12720).2.2 rfl rfl rfl).trans
      (by norm_num [fmtNV12720])⟩

/-- C1 counterexample: with the transport returning 26984 exactly once at
frame 1 and 0 otherwise (3 frames to send, increment 3333333), the run
submits [0, 3333333, 3333333]: the same Timestamp is indeed sent twice,
but the retry consumed a loop iteration, so the third distinct Timestamp
2 * 3333333 is never delivered, contradicting the claim that every one of
the frames_to_send distinct Timestamps is eventually delivered. -/
theorem C1_counterexample :
    (run_send_test true (rcOnce 1) (fun _ => true) 3 1 1).submissions =
      [0, 3333333, 3333333] ∧
    framesToSend 1 3 1 = 3 ∧
    ¬ ((2 * 3333333 : Int) ∈
      (run_send_test true (rcOnce 1) (fun _ => true) 3 1 1).submissions) := by
  decide

/-- C1 (amended): when a submission returns 26984 with a peer active, the
driver sleeps and resubmits the same Timestamp and payload at the next
loop iteration instead of repeating the same index: the run completes
with result Ok, the timestamp of iteration t is the one reached after
stutterIdx i0 t advances (so iterations i0 and i0 + 1 carry the same
Timestamp), and because the retry consumes one of the frames_to_send
iterations only frames_to_send - 1 distinct Timestamps are delivered. -/
theorem C1_backpressure_retry (fps_n fps_d dur i0 : Nat) :
    (run_send_test true (rcOnce i0) (fun _ => true) fps_n fps_d dur).result
      = .ok ∧
    (run_send_test true (rcOnce i0) (fun _ => true) fps_n fps_d dur).submissions
      = (List.range (framesToSend dur fps_n fps_d)).map
          (fun t : Nat => ptsIter 0 (ticksPerFrame fps_n fps_d) (stutterIdx i0 t)) ∧
    (i0 + 1 < framesToSend dur fps_n fps_d →
      (run_send_test true (rcOnce i0) (fun _ => true) fps_n fps_d dur).submissions.get? i0
        = (run_send_test true (rcOnce i0) (fun _ => true) fps_n fps_d dur).submissions.get?
            (i0 + 1)) := by
  have hloop := streamLoop_rcOnce_eq i0 (ticksPerFrame fps_n fps_d)
    (framesToSend dur fps_n fps_d) 0 0
  have hsub : (run_send_test true (rcOnce i0) (fun _ => true) fps_n fps_d
      dur).submissions =
      (List.range (framesToSend dur fps_n fps_d)).map
        (fun t : Nat => ptsIter 0 (ticksPerFrame fps_n fps_d) (stutterIdx i0 t)) := by
    rw [run_submissions_eq, hloop]
    dsimp only
    refine List.map_congr_left fun t _ => ?_
    have he : t - (if 0 ≤ i0 ∧ i0 < 0 + t then 1 else 0) = stutterIdx i0 t := by
      simp only [stutterIdx]
      split_ifs <;> omega
    rw [he]
  refine ⟨?_, hsub, ?_⟩
  · simp [run_send_test, hloop]
  · intro hlt
    rw [hsub, List.get?_map, List.get?_map, List.get?_range (by omega),
      List.get?_range hlt]
    have h1 : stutterIdx i0 i0 = i0 := by
      simp [stutterIdx]
    have h2 : stutterIdx i0 (i0 + 1) = i0 := by
      simp only [stutterIdx]
      split_ifs <;> omega
    simp [h1, h2]

/-- C1 witness: the amended theorem applied at 3 frames, backpressure at
frame 1: iterations 1 and 2 submit the same Timestamp. -/
theorem C1_backpressure_retry_witness :
    1 + 1 < framesToSend 1 3 1 ∧
    (run_send_test true (rcOnce 1) (fun _ => true) 3 1 1).submissions.get? 1 =
      (run_send_test true (rcOnce 1) (fun _ => true) 3 1 1).submissions.get? 2 :=
  ⟨by decide, (C1_backpressure_retry 3 1 1 1).2.2 (by decide)⟩

set_option maxRecDepth 8000 in
/-- C2: evaluation at the failing input.  With a created session, a peer
active and the transport returning -1 at frame 0, the run ends with the
typed error SubmissionFatal 0 (-1) by the early return on src/main.rs
line 253, and omt_send_destroy is never reached (destroyed = false),
while a run that reaches the end of its duration does call destroy.  The
claim (destroy exactly once on every termination path) is what the spec
mandates; the code skips it on the fatal path. -/
theorem C2_fatal_path_skips_destroy :
    (run_send_test true (fun _ => -1) (fun _ => true) 30 1 1).result =
      .submissionFatal 0 (-1) ∧
    (run_send_test true (fun _ => -1) (fun _ => true) 30 1 1).destroyed
      = false ∧
    (run_send_test true (fun _ => 0) (fun _ => true) 30 1 1).destroyed
      = true := by
  decide

set_option maxRecDepth 8000 in
/-- C3 counterexample: the driver returns Ok in runs that did not reach
the end of their duration and in runs in which no frame was ever
accepted.  With rc = 1 and the peer gone, the loop breaks by peer loss
after 1 of 30 frames, yet the result is Ok; with duration 0 the loop
makes no send call at all and the result is still Ok. -/
theorem C3_counterexample :
    (run_send_test true (fun _ => 1) (fun _ => false) 30 1 1).result = .ok ∧
    (run_send_test true (fun _ => 1) (fun _ => false) 30 1 1).submissions.length
      = 1 ∧
    framesToSend 1 30 1 = 30 ∧
    (streamLoop (fun _ => 1) (fun _ => false) (ticksPerFrame 30 1)
      (framesToSend 1 30 1) 0 0).2 = .peerLoss ∧
    (run_send_test true (fun _ => 0) (fun _ => true) 30 1 0).result = .ok ∧
    (run_send_test true (fun _ => 0) (fun _ => true) 30 1 0).submissions
      = [] := by
  decide

/-- C3 (amended): the driver returns Ok exactly when session creation
succeeded and the streaming loop ended without a fatal submission error,
whether it completed the full duration or was cut short by peer loss; it
returns SessionCreateFailed exactly when the create call failed, and
SubmissionFatal i rc exactly when iteration i ended the loop fatally with
code rc.  No condition on accepted frames is checked. -/
theorem C3_result_characterisation (createOk : Bool) (rc : Nat → Int)
    (peer : Nat → Bool) (fps_n fps_d dur : Nat) :
    ((run_send_test createOk rc peer fps_n fps_d dur).result = .ok ↔
      createOk = true ∧
        ((streamLoop rc peer (ticksPerFrame fps_n fps_d)
            (framesToSend dur fps_n fps_d) 0 0).2 = .completed ∨
          (streamLoop rc peer (ticksPerFrame fps_n fps_d)
            (framesToSend dur fps_n fps_d) 0 0).2 = .peerLoss)) ∧
    ((run_send_test createOk rc peer fps_n fps_d dur).result =
        .sessionCreateFailed ↔ createOk = false) ∧
    (∀ i r, (run_send_test createOk rc peer fps_n fps_d dur).result =
        .submissionFatal i r ↔
      createOk = true ∧
        (streamLoop rc peer (ticksPerFrame fps_n fps_d)
          (framesToSend dur fps_n fps_d) 0 0).2 = .fatal i r) := by
  cases createOk
  · simp [run_send_test]
  · rcases hst : streamLoop rc peer (ticksPerFrame fps_n fps_d)
      (framesToSend dur fps_n fps_d) 0 0 with ⟨subs, out⟩
    cases out <;> simp [run_send_test, hst]

set_option maxRecDepth 8000 in
/-- C3 witness: the characterisation applied at a run that completes all
30 frames with rc always 0. -/
theorem C3_result_characterisation_witness :
    (run_send_test true (fun _ => 0) (fun _ => true) 30 1 1).result = .ok :=
  (C3_result_characterisation true (fun _ => 0) (fun _ => true) 30 1 1).1.mpr
    ⟨rfl, Or.inl (by decide)⟩

/-- C4 counterexample: a negative return code does not always fail the
session: with rc = -1 at frame 0 and no active peer at the moment of
inspection, the loop takes the disconnect branch of src/main.rs line 235
first, breaks out, and the run returns Ok (and destroy is called), with
no SubmissionFatal error at all. -/
theorem C4_counterexample :
    (run_send_test true (fun _ => -1) (fun _ => false) 30 1 1).result
      = .ok ∧
    (run_send_test true (fun _ => -1) (fun _ => false) 30 1 1).destroyed
      = true := by
  decide

/-- C4 (amended): a submission returning a negative rc fails the session
with a fatal outcome carrying that rc only when a peer is active at the
moment of inspection; the loop then stops immediately with that single
submission recorded. -/
theorem C4_negative_rc_fatal (rc : Nat → Int) (peer : Nat → Bool)
    (d : Int) (n i : Nat) (p : Int) (hneg : rc i < 0) (hp : peer i = true) :
    streamLoop rc peer d (n + 1) i p = ([p], .fatal i (rc i)) :=
  streamLoop_step_fatal rc peer d n i p (by omega) hp (by omega)
    (interpret_neg_not_nonfatal (rc i) hneg)

/-- C4 witness: the amended theorem applied to rc = -5 with an active
peer at iteration 0. -/
theorem C4_negative_rc_fatal_witness :
    (-5 : Int) < 0 ∧
    streamLoop (fun _ => -5) (fun _ => true) 0 1 0 0 =
      ([0], .fatal 0 (-5)) :=
  ⟨by decide, C4_negative_rc_fatal (fun _ => -5) (fun _ => true) 0 0 0 0
    (by decide) rfl⟩

/-- C5 counterexample: create_test_frame never fails: at both inputs
where the claim demands an error it returns a buffer.  For NV12 3x3 (odd
width and height) it returns the 9 + 4 = 13 byte buffer of the floor
sizes, and for a codec outside the three supported ones it returns the
16 byte zero buffer of the default arms. -/
theorem C5_counterexample :
    (⟨.NV12, 3, 3, 30, 1, "NV12_odd"⟩ : VideoFormat).create_test_frame.length
      = 13 ∧
    (⟨.Other, 2, 2, 30, 1, "unknown"⟩ : VideoFormat).create_test_frame.length
      = 16 ∧
    (⟨.Other, 2, 2, 30, 1, "unknown"⟩ : VideoFormat).create_test_frame =
      List.replicate 16 0 := by
  decide

/-- C5 (amended): the generator performs no encoding or dimension
validation and never fails: for every format, also with an unsupported
encoding or odd dimensions, it returns a buffer of exactly buffer_size
bytes, and for an encoding outside UYVY, BGRA, NV12 that buffer is the
untouched zero buffer of width * 4 * height bytes. -/
theorem C5_generator_total :
    (∀ f : VideoFormat, f.create_test_frame.length = f.buffer_size) ∧
    (∀ f : VideoFormat, f.codec = .Other →
      f.create_test_frame = List.replicate (f.width * 4 * f.height) 0) := by
  refine ⟨create_test_frame_length, fun f hc => ?_⟩
  simp [VideoFormat.create_test_frame, VideoFormat.buffer_size,
    VideoFormat.stride, hc]

/-- C5 witness: the amended theorem applied to a 2x2 format with an
unsupported encoding. -/
theorem C5_generator_total_witness :
    (⟨.Other, 5, 3, 30, 1, "w"⟩ : VideoFormat).create_test_frame =
      List.replicate (5 * 4 * 3) 0 :=
  C5_generator_total.2 ⟨.Other, 5, 3, 30, 1, "w"⟩ rfl
